import Mathlib

/-!
# Verification of the Cue player-driver subsystem

Shallow embedding of the external-player control core of the Cue repository:

* `src/core/drivers/ipc_driver.py` — `PlayerDriver.launch`, `_send_ipc_command`
  (mpv/celluloid JSON-IPC variant: startup state machine + playback monitor);
* `src/core/drivers/vlc_driver.py` — `VlcDriver.launch` (VLC RC variant);
* `src/core/services/playback.py` / `src/core/services.py` — fuzzy resolution of
  `last_played_index` after a launch;
* `src/core/domain.py` — the `PlaybackState` dataclass.

The drivers poll a child player process over a local control channel.  We model
one polling-loop iteration as a pure step function over the loop's mutable
locals, driven by a `Tick` record holding the player's responses for that
iteration (a `none` field is a query that returned no usable value that tick).
A whole `launch` call is a fold of the step function over a finite list of
ticks — the list ends when the child process dies or the connection breaks,
which is how the Python loop exits.  Seconds are modelled as rationals.
-/

namespace Cue

/-- Python's `needle in hay` prefix test on character lists:
`strLeads n h` is true iff `n` is an initial segment of `h`. -/
def strLeads : List Char → List Char → Bool
  | [], _ => true
  | _ :: _, [] => false
  | c :: cs, d :: ds => c == d && strLeads cs ds

/-- Python's substring containment `needle in hay` on character lists. -/
def strSubOf (needle : List Char) : List Char → Bool
  | [] => strLeads needle []
  | d :: ds => strLeads needle (d :: ds) || strSubOf needle ds

/-- Python's string containment operator: `pyIn a b` models `a in b`. -/
def pyIn (needle hay : String) : Bool :=
  strSubOf needle.toList hay.toList

/-- `core/domain.py` — dataclass `PlaybackState` with its field defaults
(`last_played_file=""`, `last_played_index=0`, `position=0.0`, `duration=0.0`,
`is_finished=False`).  The wall-clock `timestamp` field is omitted: it carries
no program logic (it is only ever set to `datetime.now()`). -/
structure PlaybackState where
  last_played_file : String := ""
  last_played_index : Nat := 0
  position : ℚ := 0
  duration : ℚ := 0
  is_finished : Bool := false
deriving Repr, DecidableEq

/-- The startup phases of `PlayerDriver.launch` (`ipc_driver.py`), i.e. the
values taken by the Python string variable `startup_phase`; the spec names them
AwaitingPlaylistLoad, ForcingIndex, AwaitingFileLoad, SeekingAndResuming,
Complete. -/
inductive Phase where
  | waitPlaylistLoad
  | forceIndex
  | waitFileLoad
  | seekAndPlay
  | done
deriving Repr, DecidableEq

/-- Numeric rank of a phase, used to state that the sequencer never moves
backwards. -/
def Phase.rank : Phase → Nat
  | .waitPlaylistLoad => 0
  | .forceIndex => 1
  | .waitFileLoad => 2
  | .seekAndPlay => 3
  | .done => 4

/-- State-changing commands the IPC driver can issue over the control channel
(`set_property playlist-pos`, `seek … absolute`, `set_property pause False`).
Read-only `get_property` queries are not commands in this sense. -/
inductive Cmd where
  | setIndex (i : ℤ)
  | seek (t : ℚ)
  | unpause
deriving Repr, DecidableEq

/-- One iteration's worth of responses from the mpv JSON IPC, as parsed by the
Python code.  `none` means the query returned no usable value this tick
(timeout, error status, or an unparsable payload — all of which
`_send_ipc_command` / the guarded conversions collapse to "no value").
`elapsed` is `time.time() - startup_start_time` at the timeout check. -/
structure MpvTick where
  path : Option String := none
  timePos : Option ℚ := none
  playlistCount : Option ℤ := none
  playlistPos : Option ℤ := none
  duration : Option ℚ := none
  elapsed : ℚ := 0
deriving Repr

/-- The mutable locals of the `while process.poll() is None` loop in
`PlayerDriver.launch`. -/
structure LoopState where
  phase : Phase
  finalPosition : ℚ
  totalDuration : ℚ
  lastPlayedFile : String
deriving Repr, DecidableEq

/-- Section A of the loop body: fuzzy file tracking.
`matched_file = next((f for f in playlist if f in curr_path or curr_path in f), None)`,
guarded by `if curr_path:` (Python truthiness: non-None and non-empty). -/
def fileTrack (playlist : List String) (lastFile : String) (path : Option String) :
    String :=
  match path with
  | none => lastFile
  | some p =>
    if p = "" then lastFile
    else
      match playlist.find? (fun f => pyIn f p || pyIn p f) with
      | some f => f
      | none => lastFile

/-- Section B of the loop body: one startup-sequencer step (`ipc_driver.py`
lines 94–146).  Takes the current phase and tracked duration, returns the new
phase, new tracked duration, and the commands issued this tick.  The 15-second
timeout check sits after the phase dispatch, inside the same
`if startup_phase != "DONE"` block, exactly as in the source. -/
def startupStep (si : ℤ) (stt : ℚ) (ph : Phase) (dur : ℚ) (t : MpvTick) :
    Phase × ℚ × List Cmd :=
  let step1 : Phase × ℚ × List Cmd :=
    match ph with
    | .waitPlaylistLoad =>
      match t.playlistCount with
      | some c => if si < c then (.forceIndex, dur, []) else (.waitPlaylistLoad, dur, [])
      | none => (.waitPlaylistLoad, dur, [])
    | .forceIndex =>
      match t.playlistPos with
      | some i =>
        if i ≠ si then (.forceIndex, dur, [Cmd.setIndex si])
        else (.waitFileLoad, dur, [])
      | none => (.forceIndex, dur, [])
    | .waitFileLoad =>
      match t.duration with
      | some d => if 0 < d then (.seekAndPlay, d, []) else (.waitFileLoad, dur, [])
      | none => (.waitFileLoad, dur, [])
    | .seekAndPlay =>
      (.done, dur, (if 0 < stt then [Cmd.seek stt] else []) ++ [Cmd.unpause])
    | .done => (.done, dur, [])
  if 15 < t.elapsed then
    (.done, step1.2.1, step1.2.2 ++ [Cmd.unpause])
  else step1

/-- One full iteration of the monitoring loop in `PlayerDriver.launch`:
always-on file/position tracking (section A), then either the startup sequencer
(section B, when `startup_phase != "DONE"`) or the normal-playback duration
refresh (section C, guarded by Python truthiness `if dur_resp:`, so a reported
`0` does not overwrite). -/
def mpvStep (playlist : List String) (si : ℤ) (stt : ℚ) (st : LoopState)
    (t : MpvTick) : LoopState × List Cmd :=
  let lastFile := fileTrack playlist st.lastPlayedFile t.path
  let pos := match t.timePos with | some p => p | none => st.finalPosition
  if st.phase = .done then
    let dur :=
      match t.duration with
      | some d => if d = 0 then st.totalDuration else d
      | none => st.totalDuration
    ({ phase := .done, finalPosition := pos, totalDuration := dur,
       lastPlayedFile := lastFile }, [])
  else
    let s := startupStep si stt st.phase st.totalDuration t
    ({ phase := s.1, finalPosition := pos, totalDuration := s.2.1,
       lastPlayedFile := lastFile }, s.2.2)

/-- Fold of `mpvStep` over the tick list; returns the final loop state and the
concatenation of all commands issued.  The tick list ending models the loop
exiting (child process no longer alive, or broken-pipe / reset `break`). -/
def runTicks (playlist : List String) (si : ℤ) (stt : ℚ) :
    LoopState → List MpvTick → LoopState × List Cmd
  | st, [] => (st, [])
  | st, t :: ts =>
    let s := mpvStep playlist si stt st t
    let r := runTicks playlist si stt s.1 ts
    (r.1, s.2 ++ r.2)

/-- Initial loop-state of `PlayerDriver.launch` for a non-empty playlist:
`final_position = start_time`, `total_duration = 0.0`,
`last_played_file = playlist[0]`, `startup_phase = "WAIT_PLAYLIST_LOAD"`. -/
def initLoopState (playlist : List String) (stt : ℚ) : LoopState :=
  { phase := .waitPlaylistLoad, finalPosition := stt, totalDuration := 0,
    lastPlayedFile := playlist.headD "" }

/-- Resource-lifecycle events of a `launch` call, in the order they happen. -/
inductive Event where
  | spawn
  | channelOpen
  | channelClose
  | terminateIfAlive
  | removeSocket
deriving Repr, DecidableEq

/-- Result of one modelled `launch` call: the returned snapshot, the control
commands issued, and the resource events in order. -/
structure LaunchRun where
  state : PlaybackState
  cmds : List Cmd
  events : List Event
deriving Repr, DecidableEq

/-- `PlayerDriver.launch` (`ipc_driver.py`): empty playlist returns the default
`PlaybackState()` before spawning anything; otherwise the player is spawned and
the driver connects.  `connected = false` models `_connect_ipc` returning
`None` (or the equivalent pre-loop failure): the raised `ConnectionError` is
caught by the outer `except`, the finished check is skipped, and the `finally`
block still terminates the process and removes the socket file.  On the normal
path the loop runs over `ticks`, `ipc.close()` runs, then the finished check
`total_duration > 0 and (total_duration - final_position) < 10.0` is applied.
The returned `PlaybackState` never sets `last_played_index` (dataclass
default). -/
def ipcLaunch (playlist : List String) (si : ℤ) (stt : ℚ) (connected : Bool)
    (ticks : List MpvTick) : LaunchRun :=
  if playlist = [] then
    { state := {}, cmds := [], events := [] }
  else if connected = false then
    { state := { last_played_file := playlist.headD "", position := stt,
                 duration := 0, is_finished := false },
      cmds := [],
      events := [.spawn, .terminateIfAlive, .removeSocket] }
  else
    let r := runTicks playlist si stt (initLoopState playlist stt) ticks
    let fin : Bool :=
      if 0 < r.1.totalDuration ∧ r.1.totalDuration - r.1.finalPosition < 10
      then true else false
    { state := { last_played_file := r.1.lastPlayedFile,
                 position := r.1.finalPosition,
                 duration := r.1.totalDuration,
                 is_finished := fin },
      cmds := r.2,
      events := [.spawn, .channelOpen, .channelClose, .terminateIfAlive,
                 .removeSocket] }

/-- Python `int()` truncation toward zero on a rational. -/
def pyInt (q : ℚ) : ℤ :=
  if 0 ≤ q then Rat.floor q else -Rat.floor (-q)

/-- Python's `str.strip()` (default whitespace): drop leading and trailing
whitespace characters. -/
def pyStrip (s : String) : String :=
  ⟨((s.data.dropWhile Char.isWhitespace).reverse.dropWhile
      Char.isWhitespace).reverse⟩

/-- Numeric value of an all-digit character list (what Python's `float()`
returns on a string accepted by `str.isdigit()`). -/
def digitsToNat (l : List Char) : ℕ :=
  l.foldl (fun n c => 10 * n + (c.toNat - '0'.toNat)) 0

/-- Parse a VLC RC response the way `VlcDriver.launch` does:
`resp and resp.strip().isdigit()` guards `float(resp.strip())`.  An absent
response, an empty (falsy) string, or a non-digit payload yields no value. -/
def parseVlcNum (resp : Option String) : Option ℕ :=
  match resp with
  | none => none
  | some s =>
    if s = "" then none
    else
      let t := pyStrip s
      if t ≠ "" ∧ t.toList.all Char.isDigit then some (digitsToNat t.toList)
      else none

/-- State-changing command of the VLC RC variant (only `seek <int>` is ever
issued inside the monitoring loop). -/
inductive VCmd where
  | seek (n : ℤ)
deriving Repr, DecidableEq

/-- One iteration's worth of RC-interface responses in `VlcDriver.launch`
(`get_length`, `get_time`, `get_title`); `none` models `_send_command`
returning `None`. -/
structure VlcTick where
  lenResp : Option String := none
  timeResp : Option String := none
  titleResp : Option String := none
deriving Repr

/-- The mutable locals of the `while process.poll() is None` loop in
`VlcDriver.launch`. -/
structure VlcSt where
  finalPosition : ℚ
  totalDuration : ℚ
  lastKnownTitle : Option String
  currentFilename : String
  initialSeekDone : Bool
deriving Repr, DecidableEq

/-- Output of one VLC monitoring-loop iteration: the new locals, the commands
issued, and whether the next-episode branch (which zeroes duration and
position) fired this tick. -/
structure VlcStepOut where
  st : VlcSt
  cmds : List VCmd
  resetFlag : Bool
deriving Repr, DecidableEq

/-- One full iteration of the monitoring loop in `VlcDriver.launch`
(`vlc_driver.py` lines 97–139), in source order:
A. duration acquisition (`current_dur > 0 and total_duration == 0.0`);
B. one-shot initial seek once a positive duration is known
   (`seek int(start_time)` only when `start_time > 0`);
C. position refresh;
D. next-episode detection on the trimmed `get_title` payload — a non-empty
   title differing from the last known (truthy) title resets
   `total_duration` and `final_position` to 0 and retargets
   `current_filename`. -/
def vlcStep (stt : ℚ) (st : VlcSt) (t : VlcTick) : VlcStepOut :=
  let curDur : ℚ := ((parseVlcNum t.lenResp).getD 0 : ℕ)
  let dur1 := if 0 < curDur ∧ st.totalDuration = 0 then curDur else st.totalDuration
  let seekStep : Bool × List VCmd :=
    if st.initialSeekDone = false ∧ 0 < dur1 then
      (true, if 0 < stt then [VCmd.seek (pyInt stt)] else [])
    else (st.initialSeekDone, [])
  let pos1 : ℚ :=
    match parseVlcNum t.timeResp with
    | some n => (n : ℚ)
    | none => st.finalPosition
  let clean : String := match t.titleResp with | some s => pyStrip s | none => ""
  let lkt1 : Option String :=
    if st.lastKnownTitle = none ∧ clean ≠ "" then some clean else st.lastKnownTitle
  let lktTruthy : Bool := match lkt1 with | some l => l ≠ "" | none => false
  let transition : Bool :=
    clean ≠ "" && lktTruthy && (match lkt1 with | some l => clean ≠ l | none => false)
  if transition then
    { st := { finalPosition := 0, totalDuration := 0, lastKnownTitle := some clean,
              currentFilename := clean, initialSeekDone := seekStep.1 },
      cmds := seekStep.2, resetFlag := true }
  else
    { st := { finalPosition := pos1, totalDuration := dur1, lastKnownTitle := lkt1,
              currentFilename := st.currentFilename, initialSeekDone := seekStep.1 },
      cmds := seekStep.2, resetFlag := false }

/-- Fold of `vlcStep` over the tick list; returns the final locals, all
commands issued, and the per-tick reset flags in order. -/
def runVlcTicks (stt : ℚ) : VlcSt → List VlcTick → VlcSt × List VCmd × List Bool
  | st, [] => (st, [], [])
  | st, t :: ts =>
    let o := vlcStep stt st t
    let r := runVlcTicks stt o.st ts
    (r.1, o.cmds ++ r.2.1, o.resetFlag :: r.2.2)

/-- Result of one modelled `VlcDriver.launch` call. -/
structure VlcLaunchRun where
  state : PlaybackState
  cmds : List VCmd
  resets : List Bool
  events : List Event
deriving Repr, DecidableEq

/-- `VlcDriver.launch` (`vlc_driver.py`): empty playlist returns the default
`PlaybackState()` immediately.  Otherwise `effective_playlist = playlist[si:]`
is computed and `current_filename = effective_playlist[0]` is evaluated
*before* the `try` block: for a non-empty playlist with `si ≥ len(playlist)`
this raises an uncaught `IndexError`, modelled as `Except.error`.
`connected = false` models `_connect_socket` returning `None` (or a pre-loop
crash): the raised `ConnectionError` is caught, the finished check is skipped,
and the `finally` block (close socket if open, terminate process if alive)
runs.  On the normal path the loop folds over `ticks`, then the finished check
`total_duration > 0 and (total_duration - final_position) < 10.0` is applied
inside the `try`.  The returned `PlaybackState` never sets
`last_played_index`. -/
def vlcLaunch (playlist : List String) (si : ℕ) (stt : ℚ) (connected : Bool)
    (ticks : List VlcTick) : Except String VlcLaunchRun :=
  if playlist = [] then
    .ok { state := {}, cmds := [], resets := [], events := [] }
  else
    match playlist.drop si with
    | [] => .error "IndexError: effective_playlist is empty"
    | f0 :: _ =>
      if connected = false then
        .ok { state := { last_played_file := f0, position := stt, duration := 0,
                         is_finished := false },
              cmds := [], resets := [],
              events := [.spawn, .terminateIfAlive] }
      else
        let init : VlcSt :=
          { finalPosition := stt, totalDuration := 0, lastKnownTitle := none,
            currentFilename := f0, initialSeekDone := false }
        let r := runVlcTicks stt init ticks
        let fin : Bool :=
          if 0 < r.1.totalDuration ∧ r.1.totalDuration - r.1.finalPosition < 10
          then true else false
        .ok { state := { last_played_file := r.1.currentFilename,
                         position := r.1.finalPosition,
                         duration := r.1.totalDuration,
                         is_finished := fin },
              cmds := r.2.1, resets := r.2.2,
              events := [.spawn, .channelOpen, .channelClose, .terminateIfAlive] }

/-- One newline-delimited message arriving on the IPC socket, as seen by
`_send_ipc_command` (`ipc_driver.py` lines 213–226): either a line that fails
`json.loads` (silently skipped), or a parsed object with optional
`request_id`, `error` and `data` fields (`resp.get(...)` returns `None` when a
field is missing).  `α` is the type of the `data` payload. -/
inductive IpcMsg (α : Type) where
  | malformed
  | msg (rid : Option ℤ) (err : Option String) (data : Option α)
deriving Repr, DecidableEq

/-- The receive loop of `_send_ipc_command`: scan incoming lines until one
carries the outstanding `request_id`; return its `data` when
`error == "success"`, `None` otherwise.  Lines with a different (or missing)
`request_id` and malformed lines are passed over.  An exhausted stream models
the per-call `socket.timeout` (return `None`). -/
def scanResp {α : Type} (rid : ℤ) : List (IpcMsg α) → Option α
  | [] => none
  | .malformed :: rest => scanResp rid rest
  | .msg r e d :: rest =>
    if r = some rid then (if e = some "success" then d else none)
    else scanResp rid rest

/-- `PlayerDriver._send_ipc_command`: bump `self.request_id_counter`, tag the
request with the new counter value, and run the receive scan for that
correlation ID.  Returns the new counter together with the call's result. -/
def sendIpc {α : Type} (counter : ℕ) (msgs : List (IpcMsg α)) : ℕ × Option α :=
  let rid := counter + 1
  (rid, scanResp (rid : ℤ) msgs)

/-- Does an `IpcMsg` carry the given correlation ID? -/
def IpcMsg.matches {α : Type} (rid : ℤ) : IpcMsg α → Prop
  | .malformed => False
  | .msg r _ _ => r = some rid

instance {α : Type} (rid : ℤ) (m : IpcMsg α) : Decidable (m.matches rid) := by
  cases m with
  | malformed => exact isFalse (fun h => h)
  | msg r e d => exact (inferInstance : Decidable (r = some rid))

/-- `PlaybackService.launch_media` (`src/core/services/playback.py` lines
85–93, identically `src/core/services.py` lines 428–435): after the driver
returns, resolve `last_played_index` by scanning `series_files` in order for
the first entry fuzzily matching the reported `last_played_file`
(`reported in entry or entry in reported`); default 0 when the reported file
is falsy (empty) or nothing matches. -/
def resolveLastPlayedIndex (lastFile : String) (seriesFiles : List String) : ℕ :=
  if lastFile = "" then 0
  else
    match seriesFiles.findIdx? (fun f => pyIn lastFile f || pyIn f lastFile) with
    | some i => i
    | none => 0

/-! ## Theorems -/

/-- C7: For the empty playlist, `launch` in every driver variant returns a
zero-valued `PlaybackState` immediately (empty `last_played_file`, index 0,
position 0.0, duration 0.0, `is_finished` false) without spawning any player
process or opening any channel (no resource events, no commands), and this is
not an error (the VLC variant returns `.ok`). -/
theorem empty_playlist_is_noop (si : ℤ) (sj : ℕ) (stt stu : ℚ) (c d : Bool)
    (ticks : List MpvTick) (vticks : List VlcTick) :
    ipcLaunch [] si stt c ticks =
      { state := { last_played_file := "", last_played_index := 0, position := 0,
                   duration := 0, is_finished := false },
        cmds := [], events := [] } ∧
    vlcLaunch [] sj stu d vticks =
      .ok { state := { last_played_file := "", last_played_index := 0, position := 0,
                       duration := 0, is_finished := false },
            cmds := [], resets := [], events := [] } := by
  constructor
  · simp [ipcLaunch]
  · simp [vlcLaunch]

/-- C10: The `PlaybackState` returned directly by either driver's `launch`
always has `last_played_index = 0` (the dataclass default): neither driver
ever sets the playlist index itself. -/
theorem driver_returns_default_index (pl pl2 : List String) (si : ℤ) (sj : ℕ)
    (stt stu : ℚ) (c d : Bool) (ticks : List MpvTick) (vticks : List VlcTick) :
    (ipcLaunch pl si stt c ticks).state.last_played_index = 0 ∧
    (∀ r : VlcLaunchRun, vlcLaunch pl2 sj stu d vticks = .ok r →
      r.state.last_played_index = 0) := by
  constructor
  · unfold ipcLaunch
    split
    · rfl
    · split
      · rfl
      · rfl
  · intro r hr
    unfold vlcLaunch at hr
    split at hr
    · cases hr; rfl
    · split at hr
      · cases hr
      · split at hr
        · cases hr; rfl
        · cases hr; rfl

/-- C10 witness at a concrete input. -/
theorem driver_returns_default_index_witness :
    (ipcLaunch ["a"] 0 0 true []).state.last_played_index = 0 ∧
    (∀ r : VlcLaunchRun, vlcLaunch ["a"] 0 0 true [] = .ok r →
      r.state.last_played_index = 0) :=
  driver_returns_default_index ["a"] ["a"] 0 0 0 0 true true [] []

/-- C3: For every terminating run of `launch` in either driver variant, the
returned `PlaybackState` has `is_finished = true` iff the final duration is
strictly positive and `duration - position < 10.0`; in particular
`is_finished` is false whenever duration is 0, regardless of position. -/
theorem finished_flag_iff (pl pl2 : List String) (si : ℤ) (sj : ℕ)
    (stt stu : ℚ) (c d : Bool) (ticks : List MpvTick) (vticks : List VlcTick) :
    ((ipcLaunch pl si stt c ticks).state.is_finished = true ↔
      0 < (ipcLaunch pl si stt c ticks).state.duration ∧
        (ipcLaunch pl si stt c ticks).state.duration -
          (ipcLaunch pl si stt c ticks).state.position < 10) ∧
    (∀ r : VlcLaunchRun, vlcLaunch pl2 sj stu d vticks = .ok r →
      (r.state.is_finished = true ↔
        0 < r.state.duration ∧ r.state.duration - r.state.position < 10)) := by
  constructor
  · unfold ipcLaunch
    split
    · simp
    · split
      · simp
      · simp only []
        split <;> simp_all
  · intro r hr
    unfold vlcLaunch at hr
    split at hr
    · cases hr; simp
    · split at hr
      · cases hr
      · split at hr
        · cases hr; simp
        · cases hr
          simp only []
          split <;> simp_all

/-- C3 witness at a concrete input. -/
theorem finished_flag_iff_witness :
    ((ipcLaunch ["a"] 0 0 true []).state.is_finished = true ↔
      0 < (ipcLaunch ["a"] 0 0 true []).state.duration ∧
        (ipcLaunch ["a"] 0 0 true []).state.duration -
          (ipcLaunch ["a"] 0 0 true []).state.position < 10) ∧
    (∀ r : VlcLaunchRun, vlcLaunch ["a"] 0 0 true [] = .ok r →
      (r.state.is_finished = true ↔
        0 < r.state.duration ∧ r.state.duration - r.state.position < 10)) :=
  finished_flag_iff ["a"] ["a"] 0 0 0 0 true true [] []

/-- C5: For every non-empty playlist, if the control channel cannot be
connected within the timeout (or the player process crashes before
connection), `launch` does not propagate an exception and still returns a
best-effort `PlaybackState` with `position = start_time`, `duration = 0`,
`is_finished = false` (for the VLC variant, under the caller-guaranteed bound
`start_index < len(playlist)`). -/
theorem connect_failure_best_effort (pl pl2 : List String) (si : ℤ) (sj : ℕ)
    (stt stu : ℚ) (ticks : List MpvTick) (vticks : List VlcTick)
    (hpl : pl ≠ []) (hsj : sj < pl2.length) :
    ((ipcLaunch pl si stt false ticks).state.position = stt ∧
     (ipcLaunch pl si stt false ticks).state.duration = 0 ∧
     (ipcLaunch pl si stt false ticks).state.is_finished = false) ∧
    (∃ r : VlcLaunchRun, vlcLaunch pl2 sj stu false vticks = .ok r ∧
      r.state.position = stu ∧ r.state.duration = 0 ∧
      r.state.is_finished = false) := by
  constructor
  · unfold ipcLaunch
    rw [if_neg hpl]
    simp
  · have hpl2 : pl2 ≠ [] := by
      intro h
      rw [h] at hsj
      simp at hsj
    have hdrop : pl2.drop sj ≠ [] := by
      intro h
      have := List.length_drop sj pl2
      rw [h] at this
      simp at this
      omega
    unfold vlcLaunch
    rw [if_neg hpl2]
    split
    · exact absurd (by assumption) hdrop
    · exact ⟨_, rfl, rfl, rfl, rfl⟩

/-- C5 witness at a concrete input. -/
theorem connect_failure_best_effort_witness :
    (((ipcLaunch ["a"] 0 7 false []).state.position = 7 ∧
      (ipcLaunch ["a"] 0 7 false []).state.duration = 0 ∧
      (ipcLaunch ["a"] 0 7 false []).state.is_finished = false) ∧
     (∃ r : VlcLaunchRun, vlcLaunch ["a", "b"] 1 9 false [] = .ok r ∧
       r.state.position = 9 ∧ r.state.duration = 0 ∧
       r.state.is_finished = false)) :=
  connect_failure_best_effort ["a"] ["a", "b"] 0 1 7 9 [] []
    (by decide) (by decide)

/-- Helper: the receive scan ignores any inserted message that does not carry
the outstanding correlation ID (malformed lines included). -/
theorem scanResp_skip {α : Type} (rid : ℤ) (m : IpcMsg α)
    (hm : ¬ m.matches rid) :
    ∀ pre post : List (IpcMsg α),
      scanResp rid (pre ++ m :: post) = scanResp rid (pre ++ post) := by
  intro pre
  induction pre with
  | nil =>
    intro post
    cases m with
    | malformed => simp [scanResp]
    | msg r e dta =>
      have hr : ¬ r = some rid := hm
      simp [scanResp, hr]
  | cons a pre ih =>
    intro post
    cases a with
    | malformed => simpa [scanResp] using ih post
    | msg r e dta =>
      by_cases hr : r = some rid
      · simp [scanResp, hr]
      · simpa [scanResp, hr] using ih post

/-- Helper: when no earlier message matches the outstanding correlation ID,
the first matching response alone decides the call's result: its `data` when
`error == "success"`, `None` otherwise. -/
theorem scanResp_found {α : Type} (rid : ℤ) (e : Option String)
    (dta : Option α) :
    ∀ pre post : List (IpcMsg α), (∀ m ∈ pre, ¬ m.matches rid) →
      scanResp rid (pre ++ .msg (some rid) e dta :: post) =
        if e = some "success" then dta else none := by
  intro pre
  induction pre with
  | nil =>
    intro post _
    simp [scanResp]
  | cons a pre ih =>
    intro post hpre
    have ha : ¬ a.matches rid := hpre a (List.mem_cons_self a pre)
    have hrest : ∀ m ∈ pre, ¬ m.matches rid := fun m hm =>
      hpre m (List.mem_cons_of_mem a hm)
    cases a with
    | malformed => simpa [scanResp] using ih post hrest
    | msg r e2 d2 =>
      have hr : ¬ r = some rid := ha
      simpa [scanResp, hr] using ih post hrest

/-- C6: `_send_ipc_command` tags each request with a strictly increasing
correlation ID (the counter is bumped on every call) and returns the `data`
payload only from a response whose `request_id` equals that ID and whose
`error` field is `"success"`: a response bearing a different (or absent)
`request_id` and a malformed line are both discarded without affecting the
result, and the first matching response yields its `data` on `"success"` and
`None` otherwise. -/
theorem sendIpc_correlation {α : Type} :
    (∀ (n : ℕ) (msgs : List (IpcMsg α)),
       (sendIpc n msgs).1 = n + 1 ∧
       (sendIpc n msgs).2 = scanResp ((n + 1 : ℕ) : ℤ) msgs) ∧
    (∀ (rid : ℤ) (r : Option ℤ) (e : Option String) (dta : Option α)
       (pre post : List (IpcMsg α)), r ≠ some rid →
       scanResp rid (pre ++ .msg r e dta :: post) = scanResp rid (pre ++ post)) ∧
    (∀ (rid : ℤ) (pre post : List (IpcMsg α)),
       scanResp rid (pre ++ .malformed :: post) = scanResp rid (pre ++ post)) ∧
    (∀ (rid : ℤ) (e : Option String) (dta : Option α)
       (pre post : List (IpcMsg α)), (∀ m ∈ pre, ¬ m.matches rid) →
       scanResp rid (pre ++ .msg (some rid) e dta :: post) =
         if e = some "success" then dta else none) ∧
    (∀ rid : ℤ, scanResp rid ([] : List (IpcMsg α)) = none) := by
  refine ⟨fun n msgs => ⟨rfl, rfl⟩, ?_, ?_, ?_, fun rid => rfl⟩
  · intro rid r e dta pre post hr
    exact scanResp_skip rid (.msg r e dta) hr pre post
  · intro rid pre post
    exact scanResp_skip rid .malformed (fun h => h) pre post
  · intro rid e dta pre post hpre
    exact scanResp_found rid e dta pre post hpre

/-- C6 witness at a concrete input: request 6 discards a stray response with
`request_id = 5`, skips a malformed line, and takes the payload of the first
matching `request_id = 6` response. -/
theorem sendIpc_correlation_witness :
    (sendIpc 5 ([.msg (some 5) (some "success") (some 99)] : List (IpcMsg ℤ))).1 =
      5 + 1 ∧
    scanResp (6 : ℤ)
      ([.malformed] ++ .msg (some 5) (some "success") (some (99 : ℤ)) ::
        [.msg (some 6) (some "success") (some 42)]) =
      scanResp (6 : ℤ)
        ([.malformed] ++ [.msg (some 6) (some "success") (some 42)]) ∧
    scanResp (6 : ℤ)
      ([] ++ IpcMsg.malformed :: [.msg (some 6) (some "success") (some (42 : ℤ))]) =
      scanResp (6 : ℤ) ([] ++ [.msg (some 6) (some "success") (some 42)]) ∧
    scanResp (6 : ℤ)
      ([.msg (some 5) (some "success") (some (99 : ℤ))] ++
        .msg (some 6) (some "success") (some 42) :: []) =
      (if (some "success" : Option String) = some "success"
       then (some 42 : Option ℤ) else none) ∧
    scanResp (6 : ℤ) ([] : List (IpcMsg ℤ)) = none :=
  ⟨(sendIpc_correlation.1 5 _).1,
   sendIpc_correlation.2.1 6 (some 5) (some "success") (some 99) _ _ (by decide),
   sendIpc_correlation.2.2.1 6 _ _,
   sendIpc_correlation.2.2.2.1 6 (some "success") (some 42) _ _ (by decide),
   sendIpc_correlation.2.2.2.2 6⟩

/-- Helper: `findIdx?` returns the least index satisfying the predicate. -/
theorem findIdx_first_match {α : Type} (p : α → Bool) (dflt : α) :
    ∀ (l : List α) (i : ℕ), i < l.length →
      p (l.getD i dflt) = true →
      (∀ j < i, p (l.getD j dflt) = false) →
      l.findIdx? p = some i := by
  intro l
  induction l with
  | nil => intro i hi _ _; simp at hi
  | cons a l ih =>
    intro i hi hp hmin
    cases i with
    | zero =>
      simp only [List.getD_cons_zero] at hp
      simp [List.findIdx?_cons, hp]
    | succ n =>
      have ha : p a = false := by
        have := hmin 0 (Nat.succ_pos n)
        simpa using this
      have hi2 : n < l.length := by simpa using hi
      have hp2 : p (l.getD n dflt) = true := by simpa using hp
      have hmin2 : ∀ j < n, p (l.getD j dflt) = false := by
        intro j hjn
        have := hmin (j + 1) (Nat.succ_lt_succ hjn)
        simpa using this
      rw [List.findIdx?_cons, if_neg (by simp [ha]), List.findIdx?_succ,
        ih n hi2 hp2 hmin2]
      rfl

/-- Helper: `findIdx?` finds nothing when no element satisfies the
predicate. -/
theorem findIdx_none_of_no_match {α : Type} (p : α → Bool) :
    ∀ l : List α, (∀ f ∈ l, p f = false) → l.findIdx? p = none := by
  intro l
  induction l with
  | nil => intro _; simp
  | cons a l ih =>
    intro h
    have ha := h a (List.mem_cons_self a l)
    rw [List.findIdx?_cons, if_neg (by simp [ha]), List.findIdx?_succ,
      ih (fun f hf => h f (List.mem_cons_of_mem a hf))]
    rfl

/-- C9: after a launch the service resolves `last_played_index` by fuzzy path
matching: scanning the playlist in order, the index is the first entry `f`
with `lastFile in f or f in lastFile` (Python substring containment), and 0
when the reported file is empty or matches no entry. -/
theorem resolve_index_fuzzy_first_match (lf : String) (files : List String) :
    (lf = "" → resolveLastPlayedIndex lf files = 0) ∧
    ((∀ f ∈ files, (pyIn lf f || pyIn f lf) = false) →
      resolveLastPlayedIndex lf files = 0) ∧
    (∀ i : ℕ, i < files.length → lf ≠ "" →
      (pyIn lf (files.getD i "") || pyIn (files.getD i "") lf) = true →
      (∀ j < i,
        (pyIn lf (files.getD j "") || pyIn (files.getD j "") lf) = false) →
      resolveLastPlayedIndex lf files = i) := by
  refine ⟨fun h => ?_, fun h => ?_, fun i hi hlf hp hmin => ?_⟩
  · simp [resolveLastPlayedIndex, h]
  · unfold resolveLastPlayedIndex
    rw [findIdx_none_of_no_match _ files h]
    simp
  · unfold resolveLastPlayedIndex
    rw [if_neg hlf, findIdx_first_match _ "" files i hi hp hmin]

/-- C9 witness at a concrete input: the reported file `"ep2"` fuzzily matches
the second playlist entry, and an empty report resolves to 0. -/
theorem resolve_index_fuzzy_first_match_witness :
    resolveLastPlayedIndex "" ["a/ep1.mkv", "a/ep2.mkv"] = 0 ∧
    resolveLastPlayedIndex "ep2" ["a/ep1.mkv", "a/ep2.mkv"] = 1 :=
  ⟨(resolve_index_fuzzy_first_match "" ["a/ep1.mkv", "a/ep2.mkv"]).1 rfl,
   (resolve_index_fuzzy_first_match "ep2" ["a/ep1.mkv", "a/ep2.mkv"]).2.2 1
     (by decide) (by decide) (by decide)
     (by intro j hj
         interval_cases j
         decide)⟩

/-- C8: on every exit path of `launch` with a spawned process (normal
completion, startup timeout — which ends in the normal loop exit — or a
caught connection failure), the driver's `finally` block runs: the IPC
variant's event trace always ends with terminate-if-alive followed by
socket-file removal, and in both variants a channel that was opened is also
closed before return. -/
theorem launch_resource_cleanup (pl pl2 : List String) (si : ℤ) (sj : ℕ)
    (stt stu : ℚ) (c d : Bool) (ticks : List MpvTick) (vticks : List VlcTick)
    (hpl : pl ≠ []) :
    (∃ pre : List Event, (ipcLaunch pl si stt c ticks).events =
       pre ++ [Event.terminateIfAlive, Event.removeSocket]) ∧
    (Event.channelOpen ∈ (ipcLaunch pl si stt c ticks).events →
       Event.channelClose ∈ (ipcLaunch pl si stt c ticks).events) ∧
    (∀ r : VlcLaunchRun, pl2 ≠ [] → vlcLaunch pl2 sj stu d vticks = .ok r →
       r.events.getLast? = some Event.terminateIfAlive ∧
       (Event.channelOpen ∈ r.events → Event.channelClose ∈ r.events)) := by
  refine ⟨?_, ?_, ?_⟩
  · unfold ipcLaunch
    rw [if_neg hpl]
    cases c
    · exact ⟨[Event.spawn], rfl⟩
    · exact ⟨[Event.spawn, Event.channelOpen, Event.channelClose], rfl⟩
  · unfold ipcLaunch
    rw [if_neg hpl]
    cases c
    · intro h
      simp at h
    · intro _
      simp
  · intro r hpl2 hr
    unfold vlcLaunch at hr
    rw [if_neg hpl2] at hr
    split at hr
    · cases hr
    · split at hr
      · cases hr
        exact ⟨rfl, by intro h; simp at h⟩
      · cases hr
        exact ⟨rfl, by intro _; simp⟩

/-- C8 witness at a concrete input. -/
theorem launch_resource_cleanup_witness :
    (∃ pre : List Event, (ipcLaunch ["a"] 0 0 true []).events =
       pre ++ [Event.terminateIfAlive, Event.removeSocket]) ∧
    (Event.channelOpen ∈ (ipcLaunch ["a"] 0 0 true []).events →
       Event.channelClose ∈ (ipcLaunch ["a"] 0 0 true []).events) ∧
    (∀ r : VlcLaunchRun, ["b"] ≠ ([] : List String) →
       vlcLaunch ["b"] 0 0 true [] = .ok r →
       r.events.getLast? = some Event.terminateIfAlive ∧
       (Event.channelOpen ∈ r.events → Event.channelClose ∈ r.events)) :=
  launch_resource_cleanup ["a"] ["b"] 0 0 0 0 true true [] [] (by decide)

/-- Helper: past the 15-second deadline the sequencer step forces `DONE` and
appends an unpause command, whatever the phase. -/
theorem startupStep_timeout (si : ℤ) (stt : ℚ) (ph : Phase) (dur : ℚ)
    (t : MpvTick) (hto : 15 < t.elapsed) :
    (startupStep si stt ph dur t).1 = .done ∧
    Cmd.unpause ∈ (startupStep si stt ph dur t).2.2 := by
  unfold startupStep
  rw [if_pos hto]
  exact ⟨rfl, by simp⟩

/-- Helper: one sequencer step never decreases the phase rank. -/
theorem startupStep_rank_mono (si : ℤ) (stt : ℚ) (ph : Phase) (dur : ℚ)
    (t : MpvTick) :
    Phase.rank ph ≤ Phase.rank (startupStep si stt ph dur t).1 := by
  unfold startupStep
  by_cases hto : 15 < t.elapsed
  · rw [if_pos hto]
    cases ph <;> simp [Phase.rank]
  · rw [if_neg hto]
    cases ph
    · cases hc : t.playlistCount with
      | none => simp [Phase.rank]
      | some c => by_cases h : si < c <;> simp [h, Phase.rank]
    · cases hi : t.playlistPos with
      | none => simp [Phase.rank]
      | some i => by_cases h : i = si <;> simp [h, Phase.rank]
    · cases hd : t.duration with
      | none => simp [Phase.rank]
      | some d => by_cases h : 0 < d <;> simp [h, Phase.rank]
    · simp [Phase.rank]
    · simp [Phase.rank]

/-- Helper: one monitoring-loop iteration never decreases the phase rank. -/
theorem mpvStep_rank_mono (pl : List String) (si : ℤ) (stt : ℚ)
    (st : LoopState) (t : MpvTick) :
    Phase.rank st.phase ≤ Phase.rank (mpvStep pl si stt st t).1.phase := by
  simp only [mpvStep]
  by_cases hdn : st.phase = .done
  · rw [if_pos hdn, hdn]
  · rw [if_neg hdn]
    exact startupStep_rank_mono si stt st.phase st.totalDuration t

/-- C1: each tick of the startup sequencer inside `PlayerDriver.launch`
follows the spec's transition table exactly.  Within the 15-second window:
`AwaitingPlaylistLoad` advances (to `ForcingIndex`, commandlessly) exactly
when the reported playlist count exceeds `start_index`; `ForcingIndex` issues
a set-index command and stays whenever the reported index differs, advances
commandlessly exactly on a report equal to `start_index`, and stays on no
report; `AwaitingFileLoad` advances exactly on a strictly positive reported
duration (recording it); `SeekingAndResuming` one-shot issues a seek iff
`start_time > 0` followed by an unpause and completes.  Past the window any
unfinished phase completes with an unpause, `Complete` is absorbing and
commandless, and the phase rank never decreases (no completed phase is
revisited). -/
theorem ipc_startup_transition_table (pl : List String) (si : ℤ) (stt : ℚ)
    (st : LoopState) (t : MpvTick) :
    (t.elapsed ≤ 15 →
      (st.phase = .waitPlaylistLoad →
        ((mpvStep pl si stt st t).1.phase = .forceIndex ↔
           ∃ c, t.playlistCount = some c ∧ si < c) ∧
        ((mpvStep pl si stt st t).1.phase = .forceIndex ∨
           (mpvStep pl si stt st t).1.phase = .waitPlaylistLoad) ∧
        (mpvStep pl si stt st t).2 = []) ∧
      (st.phase = .forceIndex →
        (∀ i : ℤ, t.playlistPos = some i → i ≠ si →
           (mpvStep pl si stt st t).1.phase = .forceIndex ∧
           (mpvStep pl si stt st t).2 = [Cmd.setIndex si]) ∧
        (t.playlistPos = some si →
           (mpvStep pl si stt st t).1.phase = .waitFileLoad ∧
           (mpvStep pl si stt st t).2 = []) ∧
        (t.playlistPos = none →
           (mpvStep pl si stt st t).1.phase = .forceIndex ∧
           (mpvStep pl si stt st t).2 = [])) ∧
      (st.phase = .waitFileLoad →
        (mpvStep pl si stt st t).2 = [] ∧
        ((mpvStep pl si stt st t).1.phase = .seekAndPlay ↔
           ∃ d, t.duration = some d ∧ 0 < d) ∧
        ((mpvStep pl si stt st t).1.phase = .seekAndPlay ∨
           (mpvStep pl si stt st t).1.phase = .waitFileLoad) ∧
        (∀ d : ℚ, t.duration = some d → 0 < d →
           (mpvStep pl si stt st t).1.totalDuration = d)) ∧
      (st.phase = .seekAndPlay →
        (mpvStep pl si stt st t).1.phase = .done ∧
        (mpvStep pl si stt st t).2 =
          (if 0 < stt then [Cmd.seek stt] else []) ++ [Cmd.unpause])) ∧
    (15 < t.elapsed → st.phase ≠ .done →
      (mpvStep pl si stt st t).1.phase = .done ∧
      Cmd.unpause ∈ (mpvStep pl si stt st t).2) ∧
    (st.phase = .done → (mpvStep pl si stt st t).1.phase = .done ∧
      (mpvStep pl si stt st t).2 = []) ∧
    Phase.rank st.phase ≤ Phase.rank (mpvStep pl si stt st t).1.phase := by
  refine ⟨fun hT => ⟨fun hph => ?_, fun hph => ?_, fun hph => ?_, fun hph => ?_⟩,
    fun hT hph => ?_, fun hph => ?_, ?_⟩
  · -- waitPlaylistLoad row
    simp only [mpvStep, startupStep, hph]
    have hnt : ¬ (15 < t.elapsed) := not_lt.mpr hT
    cases hc : t.playlistCount with
    | none => simp [hc, hnt]
    | some c =>
      by_cases hsc : si < c
      · simp [hc, hnt, hsc]
      · simp [hc, hnt, hsc]
  · -- forceIndex rows
    simp only [mpvStep, startupStep, hph]
    have hnt : ¬ (15 < t.elapsed) := not_lt.mpr hT
    cases hi : t.playlistPos with
    | none => simp [hi, hnt]
    | some i =>
      by_cases hne : i = si
      · subst hne
        simp [hi, hnt]
      · simp [hi, hnt, hne]
  · -- waitFileLoad row
    simp only [mpvStep, startupStep, hph]
    have hnt : ¬ (15 < t.elapsed) := not_lt.mpr hT
    cases hd : t.duration with
    | none => simp [hd, hnt]
    | some dv =>
      by_cases hdv : 0 < dv
      · simp [hd, hnt, hdv]
      · simp [hd, hnt, hdv]
  · -- seekAndPlay row
    simp only [mpvStep, startupStep, hph]
    have hnt : ¬ (15 < t.elapsed) := not_lt.mpr hT
    simp [hnt]
  · -- timeout row
    simp only [mpvStep]
    rw [if_neg hph]
    exact ⟨(startupStep_timeout si stt st.phase st.totalDuration t hT).1,
      (startupStep_timeout si stt st.phase st.totalDuration t hT).2⟩
  · -- done absorbing
    simp only [mpvStep]
    rw [if_pos hph]
    exact ⟨rfl, rfl⟩
  · -- rank monotone
    exact mpvStep_rank_mono pl si stt st t

/-- C1 witness at a concrete input: from `AwaitingPlaylistLoad` with a
reported count of 2 and a desired index of 1, within the window, the
sequencer advances to `ForcingIndex` with no command issued. -/
theorem ipc_startup_transition_table_witness :
    ((mpvStep ["a", "b"] 1 120 (initLoopState ["a", "b"] 120)
        { playlistCount := some 2, elapsed := 1 }).1.phase = .forceIndex ↔
      ∃ c, ({ playlistCount := some 2, elapsed := 1 } : MpvTick).playlistCount =
          some c ∧ 1 < c) ∧
    ((mpvStep ["a", "b"] 1 120 (initLoopState ["a", "b"] 120)
        { playlistCount := some 2, elapsed := 1 }).1.phase = .forceIndex ∨
     (mpvStep ["a", "b"] 1 120 (initLoopState ["a", "b"] 120)
        { playlistCount := some 2, elapsed := 1 }).1.phase = .waitPlaylistLoad) ∧
    (mpvStep ["a", "b"] 1 120 (initLoopState ["a", "b"] 120)
        { playlistCount := some 2, elapsed := 1 }).2 = [] :=
  ((ipc_startup_transition_table ["a", "b"] 1 120 (initLoopState ["a", "b"] 120)
    { playlistCount := some 2, elapsed := 1 }).1 (by decide)).1 rfl

/-- Helper: `runTicks` distributes over list append. -/
theorem runTicks_append (pl : List String) (si : ℤ) (stt : ℚ) :
    ∀ (xs ys : List MpvTick) (st : LoopState),
      runTicks pl si stt st (xs ++ ys) =
        ((runTicks pl si stt (runTicks pl si stt st xs).1 ys).1,
         (runTicks pl si stt st xs).2 ++
           (runTicks pl si stt (runTicks pl si stt st xs).1 ys).2) := by
  intro xs
  induction xs with
  | nil => intro ys st; simp [runTicks]
  | cons x xs ih =>
    intro ys st
    simp only [List.cons_append, runTicks, List.append_eq]
    rw [ih]
    simp [List.append_assoc]

/-- Helper: while the reported index never equals the target and the deadline
has not passed, a step keeps the sequencer in the first two phases and issues
no unpause. -/
theorem mpvStep_stuck (pl : List String) (si : ℤ) (stt : ℚ) (st : LoopState)
    (t : MpvTick)
    (hph : st.phase = .waitPlaylistLoad ∨ st.phase = .forceIndex)
    (hpos : t.playlistPos ≠ some si) (hT : t.elapsed ≤ 15) :
    ((mpvStep pl si stt st t).1.phase = .waitPlaylistLoad ∨
     (mpvStep pl si stt st t).1.phase = .forceIndex) ∧
    (mpvStep pl si stt st t).2.count Cmd.unpause = 0 := by
  have hnt : ¬ (15 < t.elapsed) := not_lt.mpr hT
  rcases hph with hph | hph
  · simp only [mpvStep, startupStep, hph]
    cases hc : t.playlistCount with
    | none => simp [hnt]
    | some c => by_cases h : si < c <;> simp [hnt, h]
  · simp only [mpvStep, startupStep, hph]
    cases hi : t.playlistPos with
    | none => simp [hnt]
    | some i =>
      have hne : i ≠ si := fun h => hpos (by rw [hi, h])
      simp [hnt, hne, List.count_cons]

/-- Helper: the stuck-step property extends along a whole run of ticks. -/
theorem runTicks_stuck (pl : List String) (si : ℤ) (stt : ℚ) :
    ∀ (ticks : List MpvTick) (st : LoopState),
      (st.phase = .waitPlaylistLoad ∨ st.phase = .forceIndex) →
      (∀ t ∈ ticks, t.playlistPos ≠ some si ∧ t.elapsed ≤ 15) →
      ((runTicks pl si stt st ticks).1.phase = .waitPlaylistLoad ∨
       (runTicks pl si stt st ticks).1.phase = .forceIndex) ∧
      (runTicks pl si stt st ticks).2.count Cmd.unpause = 0 := by
  intro ticks
  induction ticks with
  | nil => intro st h _; exact ⟨h, rfl⟩
  | cons t ts ih =>
    intro st hph hts
    have ht := hts t (List.mem_cons_self t ts)
    have hts2 : ∀ u ∈ ts, u.playlistPos ≠ some si ∧ u.elapsed ≤ 15 :=
      fun u hu => hts u (List.mem_cons_of_mem t hu)
    have hstep := mpvStep_stuck pl si stt st t hph ht.1 ht.2
    have hrest := ih (mpvStep pl si stt st t).1 hstep.1 hts2
    simp only [runTicks]
    exact ⟨hrest.1, by rw [List.count_append, hstep.2, hrest.2]⟩

/-- Helper: once the sequencer is `DONE`, the monitoring loop keeps it `DONE`
and issues no further commands. -/
theorem runTicks_done (pl : List String) (si : ℤ) (stt : ℚ) :
    ∀ (ticks : List MpvTick) (st : LoopState), st.phase = .done →
      (runTicks pl si stt st ticks).1.phase = .done ∧
      (runTicks pl si stt st ticks).2 = [] := by
  intro ticks
  induction ticks with
  | nil => intro st h; exact ⟨h, rfl⟩
  | cons t ts ih =>
    intro st h
    have hstep : (mpvStep pl si stt st t).1.phase = .done ∧
        (mpvStep pl si stt st t).2 = [] := by
      simp only [mpvStep]
      rw [if_pos h]
      exact ⟨rfl, rfl⟩
    have hrest := ih (mpvStep pl si stt st t).1 hstep.1
    simp only [runTicks]
    exact ⟨hrest.1, by rw [hstep.2, hrest.2]; rfl⟩

/-- Helper: a step taken past the deadline from one of the first two phases
completes the sequencer and issues exactly one unpause. -/
theorem mpvStep_timeout_once (pl : List String) (si : ℤ) (stt : ℚ)
    (st : LoopState) (t : MpvTick)
    (hph : st.phase = .waitPlaylistLoad ∨ st.phase = .forceIndex)
    (hto : 15 < t.elapsed) :
    (mpvStep pl si stt st t).1.phase = .done ∧
    (mpvStep pl si stt st t).2.count Cmd.unpause = 1 := by
  rcases hph with hph | hph
  · simp only [mpvStep, startupStep, hph]
    cases hc : t.playlistCount with
    | none => simp [hto]
    | some c => by_cases h : si < c <;> simp [hto, h]
  · simp only [mpvStep, startupStep, hph]
    cases hi : t.playlistPos with
    | none => simp [hto]
    | some i =>
      by_cases h : i = si <;> simp [hto, h, List.count_cons]

/-- C4: if the reported index never converges to `start_index` (so the
sequencer's preconditions are never met) and a tick arrives more than 15
seconds after sequence start, the run reaches `Complete` (the `DONE` phase)
instead of blocking indefinitely, and over the whole run exactly one unpause
command is issued — the forced one at the timeout. -/
theorem ipc_timeout_forces_completion (pl : List String) (si : ℤ) (stt : ℚ)
    (pre post : List MpvTick) (tk : MpvTick)
    (hpre : ∀ t ∈ pre, t.playlistPos ≠ some si ∧ t.elapsed ≤ 15)
    (htk : 15 < tk.elapsed) :
    (runTicks pl si stt (initLoopState pl stt) (pre ++ tk :: post)).1.phase =
      .done ∧
    (runTicks pl si stt (initLoopState pl stt)
        (pre ++ tk :: post)).2.count Cmd.unpause = 1 := by
  have hinv := runTicks_stuck pl si stt pre (initLoopState pl stt)
    (Or.inl rfl) hpre
  have hstep := mpvStep_timeout_once pl si stt
    (runTicks pl si stt (initLoopState pl stt) pre).1 tk hinv.1 htk
  have hdone := runTicks_done pl si stt post
    (mpvStep pl si stt (runTicks pl si stt (initLoopState pl stt) pre).1 tk).1
    hstep.1
  rw [runTicks_append pl si stt pre (tk :: post)]
  simp only [runTicks]
  refine ⟨hdone.1, ?_⟩
  rw [List.count_append, List.count_append, hinv.2, hstep.2, hdone.2]
  rfl

/-- C4 witness at a concrete input: the index never converges to 1; the tick
at 16 s forces completion with exactly one unpause over the run. -/
theorem ipc_timeout_forces_completion_witness :
    (runTicks ["a", "b"] 1 0 (initLoopState ["a", "b"] 0)
        ([{ playlistPos := some 0, elapsed := 1 }] ++
          { elapsed := 16 } :: [])).1.phase = .done ∧
    (runTicks ["a", "b"] 1 0 (initLoopState ["a", "b"] 0)
        ([{ playlistPos := some 0, elapsed := 1 }] ++
          { elapsed := 16 } :: [])).2.count Cmd.unpause = 1 :=
  ipc_timeout_forces_completion ["a", "b"] 1 0
    [{ playlistPos := some 0, elapsed := 1 }] [] { elapsed := 16 }
    (by intro t ht
        simp at ht
        subst ht
        exact ⟨by decide, by decide⟩)
    (by decide)

/-- C2 counterexample: a run of the IPC driver's playback monitor in which the
reported file transitions from `"fileA"` (duration 100 s) to `"fileB"`, yet
the tracked duration is never reset to 0 — the state reported for the new
file still carries the previous file's duration 100.  This refutes, for the
IPC variant, the claim that on every detected file transition the tracked
duration is reset to 0.0 at the first observation of the new file. -/
theorem ipc_monitor_carries_duration_cex :
    (runTicks ["fileA", "fileB"] 0 0 (initLoopState ["fileA", "fileB"] 0)
        [{ path := some "fileA", playlistCount := some 1, elapsed := 1 },
         { path := some "fileA", playlistPos := some 0, elapsed := 2 },
         { path := some "fileA", duration := some 100, elapsed := 3 },
         { path := some "fileA", elapsed := 4 }]).1.lastPlayedFile = "fileA" ∧
    (ipcLaunch ["fileA", "fileB"] 0 0 true
        [{ path := some "fileA", playlistCount := some 1, elapsed := 1 },
         { path := some "fileA", playlistPos := some 0, elapsed := 2 },
         { path := some "fileA", duration := some 100, elapsed := 3 },
         { path := some "fileA", elapsed := 4 },
         { path := some "fileB", elapsed := 5 }]).state.last_played_file =
      "fileB" ∧
    (ipcLaunch ["fileA", "fileB"] 0 0 true
        [{ path := some "fileA", playlistCount := some 1, elapsed := 1 },
         { path := some "fileA", playlistPos := some 0, elapsed := 2 },
         { path := some "fileA", duration := some 100, elapsed := 3 },
         { path := some "fileA", elapsed := 4 },
         { path := some "fileB", elapsed := 5 }]).state.duration = 100 := by
  decide

/-- Helper: the VLC monitor's first observation of a non-empty title adopts it
as the last known title without firing the next-episode reset. -/
theorem vlcStep_first_title (stt : ℚ) (st : VlcSt) (t : VlcTick) (a : String)
    (h0 : st.lastKnownTitle = none) (ht : t.titleResp = some a)
    (hA : pyStrip a ≠ "") :
    (vlcStep stt st t).resetFlag = false ∧
    (vlcStep stt st t).st.lastKnownTitle = some (pyStrip a) ∧
    (vlcStep stt st t).st.currentFilename = st.currentFilename := by
  simp only [vlcStep, ht, h0]
  simp [hA]

/-- Helper: a repeated title fires no reset and keeps the tracked title and
filename. -/
theorem vlcStep_same_title (stt : ℚ) (st : VlcSt) (t : VlcTick) (s : String)
    (h0 : st.lastKnownTitle = some (pyStrip s)) (ht : t.titleResp = some s) :
    (vlcStep stt st t).resetFlag = false ∧
    (vlcStep stt st t).st.lastKnownTitle = some (pyStrip s) ∧
    (vlcStep stt st t).st.currentFilename = st.currentFilename := by
  simp only [vlcStep, ht, h0]
  simp

/-- Helper: a non-empty title differing from the (non-empty) last known title
fires the next-episode reset: duration and position drop to 0 and the tracked
filename becomes the new title. -/
theorem vlcStep_new_title (stt : ℚ) (st : VlcSt) (t : VlcTick) (b l : String)
    (h0 : st.lastKnownTitle = some l) (hl : l ≠ "") (ht : t.titleResp = some b)
    (hB : pyStrip b ≠ "") (hne : pyStrip b ≠ l) :
    (vlcStep stt st t).resetFlag = true ∧
    (vlcStep stt st t).st.lastKnownTitle = some (pyStrip b) ∧
    (vlcStep stt st t).st.currentFilename = pyStrip b ∧
    (vlcStep stt st t).st.totalDuration = 0 ∧
    (vlcStep stt st t).st.finalPosition = 0 := by
  simp only [vlcStep, ht, h0]
  simp [hB, hl, hne]

/-- C2 amended: in the VLC driver variant, given simulated title reports
`[A, A, B, B]` (with `A`, `B` non-empty after trimming and distinct), the
monitor fires the duration reset exactly once, at the first observation of
`B` and not at the second, leaving the tracked duration at 0 and the tracked
file retargeted to `B` right after that observation.  (Per the
counterexample, the IPC variant instead carries the old duration over.) -/
theorem vlc_monitor_resets_once (stt : ℚ) (init : VlcSt)
    (t1 t2 t3 t4 : VlcTick) (a b : String)
    (h0 : init.lastKnownTitle = none)
    (h1 : t1.titleResp = some a) (h2 : t2.titleResp = some a)
    (h3 : t3.titleResp = some b) (h4 : t4.titleResp = some b)
    (hA : pyStrip a ≠ "") (hB : pyStrip b ≠ "") (hAB : pyStrip b ≠ pyStrip a) :
    (runVlcTicks stt init [t1, t2, t3, t4]).2.2 =
      [false, false, true, false] ∧
    (runVlcTicks stt init [t1, t2, t3]).1.totalDuration = 0 ∧
    (runVlcTicks stt init [t1, t2, t3]).1.currentFilename = pyStrip b := by
  have o1 := vlcStep_first_title stt init t1 a h0 h1 hA
  have o2 := vlcStep_same_title stt (vlcStep stt init t1).st t2 a o1.2.1 h2
  have o3 := vlcStep_new_title stt (vlcStep stt (vlcStep stt init t1).st t2).st
    t3 b (pyStrip a) o2.2.1 hA h3 hB hAB
  have o4 := vlcStep_same_title stt
    (vlcStep stt (vlcStep stt (vlcStep stt init t1).st t2).st t3).st t4 b
    (by rw [o3.2.1]) h4
  refine ⟨?_, ?_, ?_⟩
  · simp only [runVlcTicks]
    rw [o1.1, o2.1, o3.1, o4.1]
  · simp only [runVlcTicks]
    exact o3.2.2.2.1
  · simp only [runVlcTicks]
    exact o3.2.2.1

/-- C2 amended witness at a concrete input. -/
theorem vlc_monitor_resets_once_witness :
    (runVlcTicks 0
        { finalPosition := 0, totalDuration := 0, lastKnownTitle := none,
          currentFilename := "f", initialSeekDone := false }
        [{ titleResp := some "A" }, { titleResp := some "A" },
         { titleResp := some "B" }, { titleResp := some "B" }]).2.2 =
      [false, false, true, false] ∧
    (runVlcTicks 0
        { finalPosition := 0, totalDuration := 0, lastKnownTitle := none,
          currentFilename := "f", initialSeekDone := false }
        [{ titleResp := some "A" }, { titleResp := some "A" },
         { titleResp := some "B" }]).1.totalDuration = 0 ∧
    (runVlcTicks 0
        { finalPosition := 0, totalDuration := 0, lastKnownTitle := none,
          currentFilename := "f", initialSeekDone := false }
        [{ titleResp := some "A" }, { titleResp := some "A" },
         { titleResp := some "B" }]).1.currentFilename = pyStrip "B" :=
  vlc_monitor_resets_once 0
    { finalPosition := 0, totalDuration := 0, lastKnownTitle := none,
      currentFilename := "f", initialSeekDone := false }
    { titleResp := some "A" } { titleResp := some "A" }
    { titleResp := some "B" } { titleResp := some "B" } "A" "B"
    rfl rfl rfl rfl rfl (by decide) (by decide) (by decide)

end Cue
